import Mathlib

/-!
Verification of the scroll-snapper widget (src/src/scroll-snapper.ts and
src/src/main.ts), shallowly embedded in Lean.

Modelling conventions:
* The slides of one container are a `List Bool` of `hasIntersected` flags;
  position `i` in the list is the slide carrying `data-index = i` (written by
  `initState`, which assigns indices `0..n-1` in document order).
* `this.state` is the structure `SnapperState`.  The DOM element
  `state.currentElement` is represented by its index, `Option Nat`
  (`none` models the JS value `undefined`, which `Array.prototype.find`
  yields when no slide has intersected).  The disabled flags of the
  previous/next buttons and the highlighted dot of the dot nav are carried
  in the state as well, since `synchronize` writes them.
* `goToElement` only performs side effects (`flashElement`, i.e. the opacity
  pulse, and `scrollIntoView`); it is modelled as the list of effects it
  issues.  `goToNext`/`goToPrevious` return a `NavOutcome`: either the list
  of effects performed (empty for the silent early `return`), or `typeError`
  for the JS `TypeError` raised when `this.state.currentElement` is
  `undefined` and `.dataset` is read on it.
* `parseInt`/`|| 1` from the constructor option
  `scrollBy: parseInt(getCssVariableValue(element, '--scroll-by')) || 1`
  are modelled by `parseIntJS` and `jsOrDefault`.  `getComputedStyle`
  returns the empty string for an absent custom property, so "absent" is
  the input `""`.
-/

namespace ScrollSnapper

/-- JS `parseInt(s)` (radix unspecified, decimal input): skip leading
whitespace, optional sign, then the longest prefix of decimal digits; `none`
models `NaN` (no digits).  (`parseInt` would additionally accept a
hexadecimal `0x` prefix; no claim involves such an input, and the CSS
values considered here are decimal, so that branch is not modelled.) -/
def parseIntJS (s : String) : Option Int :=
  let cs := s.toList.dropWhile (fun c => c.isWhitespace)
  let signed : Int × List Char :=
    match cs with
    | '-' :: rest => (-1, rest)
    | '+' :: rest => (1, rest)
    | _ => (1, cs)
  let digits := signed.2.takeWhile (fun c => c.isDigit)
  if digits.isEmpty then none
  else some (signed.1 * (digits.foldl (fun acc c => acc * 10 + (c.toNat - 48)) 0 : Nat))

/-- JS `x || d` applied to the result of `parseInt`: `NaN` (here `none`)
and `0` are falsy and yield the default `d`; every other integer is kept. -/
def jsOrDefault (x : Option Int) (d : Int) : Int :=
  match x with
  | none => d
  | some v => if v = 0 then d else v

/-- The `scrollBy` option computed in the constructor:
`parseInt(getCssVariableValue(element, '--scroll-by')) || 1`,
where `cssValue` is the string the style variable resolves to. -/
def scrollByOf (cssValue : String) : Int :=
  jsOrDefault (parseIntJS cssValue) 1

/-- `this.state` of a `ScrollSnapper`.  `currentIndex` is the `data-index`
of `state.currentElement`, or `none` when that element is `undefined`;
`prevDisabled`/`nextDisabled` are the `disabled` flags `synchronize` writes
to the two buttons; `currentDot` is the dot carrying the `--current` class. -/
structure SnapperState where
  currentIndex : Option Nat
  isFirst : Bool
  isLast : Bool
  intersectingLength : Nat
  scrollBy : Int
  prevDisabled : Bool
  nextDisabled : Bool
  currentDot : Option Nat
deriving Repr, DecidableEq

/-- A constructed `ScrollSnapper`: the `hasIntersected` flags of the slides
(all `false` after `initState`) plus `this.state`. -/
structure Snapper where
  slides : List Bool
  state : SnapperState
deriving Repr, DecidableEq

/-- The constructor, for a container with `numChildren` direct children and
whose `--scroll-by` style variable resolves to `cssValue`.
`state.currentElement` is `this.elements.slides[0]`, which is `undefined`
(`none`) when the container has no children; `initState` sets every slide's
`hasIntersected` to `false`; `isFirst`/`isLast` start `false`,
`intersectingLength` starts `0`.  The constructor body has no failure path:
every branch (including `numChildren = 0`) completes normally. -/
def construct (numChildren : Nat) (cssValue : String) : Snapper :=
  { slides := List.replicate numChildren false,
    state :=
      { currentIndex := if numChildren = 0 then none else some 0,
        isFirst := false,
        isLast := false,
        intersectingLength := 0,
        scrollBy := scrollByOf cssValue,
        prevDisabled := false,
        nextDisabled := false,
        currentDot := none } }

/-- Construction error vocabulary of the specification.  The TS constructor
itself has no `throw` on any path, so the checked constructor below is
total and never produces this value; the type exists so that the absence
of the failure is statable. -/
inductive ConstructError where
  | emptyRegistration
deriving Repr, DecidableEq

/-- The constructor with its (absent) failure channel made explicit: the
source constructor throws on no input, so every input maps to `.ok`. -/
def constructChecked (numChildren : Nat) (cssValue : String) :
    Except ConstructError Snapper :=
  .ok (construct numChildren cssValue)

/-- The bootstrap loop of `src/src/main.ts`: one `ScrollSnapper` is
constructed per `[data-snap-slider]` container and pushed onto `snappers`.
(The loop has no `try`/`catch`: a throwing constructor would abort it.) -/
def bootstrap (containers : List (Nat × String)) : List Snapper :=
  containers.map (fun c => construct c.1 c.2)

/-- `synchronize`: recomputes `intersectingLength` (count of slides with
`hasIntersected`), `currentElement` (first slide with `hasIntersected`,
via `find`, `undefined` if none), bails before touching `isFirst`,
`isLast`, the buttons and the dot nav when `currentElement` is `undefined`,
and otherwise sets `isFirst := (index == 0)`,
`isLast := intersectingLength + index >= slides.length`, mirrors them into
the buttons' `disabled` flags, and moves the `--current` dot. -/
def synchronize (flags : List Bool) (s : SnapperState) : SnapperState :=
  let len := (flags.filter (fun b => b = true)).length
  match flags.findIdx? (fun b => b = true) with
  | none =>
      { s with intersectingLength := len, currentIndex := none }
  | some i =>
      let first := decide (i = 0)
      let last := decide (len + i ≥ flags.length)
      { s with
          intersectingLength := len,
          currentIndex := some i,
          isFirst := first,
          isLast := last,
          prevDisabled := first,
          nextDisabled := last,
          currentDot := some i }

/-- A DOM side effect issued by navigation. -/
inductive Effect where
  | flash (idx : Nat)
  | scrollIntoView (idx : Nat)
deriving Repr, DecidableEq

/-- `goToElement`: flashes the element (opacity pulse) and smooth-scrolls
it into view. -/
def goToElement (idx : Nat) : List Effect :=
  [Effect.flash idx, Effect.scrollIntoView idx]

/-- Outcome of a navigation call: the effects it issued (`[]` for the
silent `return` when the target element is `undefined`), or the JS
`TypeError` raised by reading `.dataset` on an `undefined`
`state.currentElement`. -/
inductive NavOutcome where
  | ok (effects : List Effect)
  | typeError
deriving Repr, DecidableEq

/-- `goToNext` over `n` slides: reads
`parseInt(this.state.currentElement.dataset.index)` — a `TypeError` when
`currentElement` is `undefined` — adds `scrollBy`, looks the target up in
`this.elements.slides` (`undefined` outside `[0, n)`), returns silently if
absent, else calls `goToElement`. -/
def goToNext (n : Nat) (current : Option Nat) (scrollBy : Int) : NavOutcome :=
  match current with
  | none => .typeError
  | some i =>
      let nextIndex : Int := (i : Int) + scrollBy
      if 0 ≤ nextIndex ∧ nextIndex < (n : Int) then
        .ok (goToElement nextIndex.toNat)
      else
        .ok []

/-- `goToPrevious` over `n` slides: like `goToNext` but subtracts
`scrollBy` and clamps a negative index to `0`
(`slides[prevIndex < 0 ? 0 : prevIndex]`) before the lookup. -/
def goToPrevious (n : Nat) (current : Option Nat) (scrollBy : Int) : NavOutcome :=
  match current with
  | none => .typeError
  | some i =>
      let prevIndexRaw : Int := (i : Int) - scrollBy
      let prevIndex : Int := if prevIndexRaw < 0 then 0 else prevIndexRaw
      if prevIndex < (n : Int) then
        .ok (goToElement prevIndex.toNat)
      else
        .ok []

/-- One entry of an `IntersectionObserver` batch: the index of the target
slide and its `isIntersecting` flag. -/
abbrev ObserverEntry := Nat × Bool

/-- Applying one entry to the flags: the callback's inner loop walks all
slides and writes `entry.isIntersecting` into the one slide that is the
entry's target — i.e. a point update at the entry's index. -/
def applyEntry (flags : List Bool) (e : ObserverEntry) : List Bool :=
  flags.set e.1 e.2

/-- The flag-application part of the observer callback: the `for` loop over
the batch, each entry applied in order. -/
def applyBatch (flags : List Bool) (batch : List ObserverEntry) : List Bool :=
  batch.foldl applyEntry flags

/-- The observer callback: apply every entry of the batch to the
`hasIntersected` flags, then call `synchronize` once on the result. -/
def observerCallback (batch : List ObserverEntry) (flags : List Bool)
    (s : SnapperState) : List Bool × SnapperState :=
  let flags' := applyBatch flags batch
  (flags', synchronize flags' s)

/-- Trace event of one observer-callback invocation, in program order. -/
inductive Event where
  | setFlag (idx : Nat) (b : Bool)
  | toggleClass (idx : Nat) (b : Bool)
  | recompute
  | updateButtons
  | updateDotNav
deriving Repr, DecidableEq

/-- Events issued while processing one batch entry: the flag write, then
`classList.toggle` on the entry's target. -/
def entryEvents (e : ObserverEntry) : List Event :=
  [Event.setFlag e.1 e.2, Event.toggleClass e.1 e.2]

/-- Events issued by `synchronize` on the given (already fully updated)
flags: the recomputation, and — only when a current slide exists — the
button-disabled updates and the dot-nav update. -/
def synchronizeEvents (flags : List Bool) : List Event :=
  match flags.findIdx? (fun b => b = true) with
  | none => [Event.recompute]
  | some _ => [Event.recompute, Event.updateButtons, Event.updateDotNav]

/-- The full event trace of one observer-callback invocation: per-entry
events for the whole batch, then the single `synchronize`. -/
def callbackEvents (batch : List ObserverEntry) (flags : List Bool) :
    List Event :=
  (batch.flatMap entryEvents) ++ synchronizeEvents (applyBatch flags batch)

/-- The state used by concrete evaluations below: the state of a snapper
constructed over three slides with no `--scroll-by` set. -/
def s0 : SnapperState := (construct 3 "").state

end ScrollSnapper

namespace ScrollSnapper

/-! Helper lemmas shared by the claim theorems. -/

theorem filterTrue_eq_count (flags : List Bool) :
    (flags.filter (fun b => b)).length = flags.count true := by
  rw [List.count, List.countP_eq_length_filter]
  simp

theorem synchronize_of_none (flags : List Bool) (s : SnapperState)
    (hf : flags.findIdx? (fun b => b = true) = none) :
    synchronize flags s =
      { s with
          intersectingLength := (flags.filter (fun b => b = true)).length,
          currentIndex := none } := by
  unfold synchronize
  rw [hf]

theorem synchronize_of_some (flags : List Bool) (s : SnapperState) (i : Nat)
    (hf : flags.findIdx? (fun b => b = true) = some i) :
    synchronize flags s =
      { s with
          intersectingLength := (flags.filter (fun b => b = true)).length,
          currentIndex := some i,
          isFirst := decide (i = 0),
          isLast := decide ((flags.filter (fun b => b = true)).length + i ≥ flags.length),
          prevDisabled := decide (i = 0),
          nextDisabled := decide ((flags.filter (fun b => b = true)).length + i ≥ flags.length),
          currentDot := some i } := by
  unfold synchronize
  rw [hf]

theorem mem_entryEvents_batch {batch : List ObserverEntry} {e : Event}
    (h : e ∈ batch.flatMap entryEvents) :
    (∃ i b, e = Event.setFlag i b) ∨ (∃ i b, e = Event.toggleClass i b) := by
  rw [List.mem_flatMap] at h
  obtain ⟨p, -, hp⟩ := h
  simp [entryEvents] at hp
  rcases hp with h1 | h2
  · exact Or.inl ⟨p.1, p.2, h1⟩
  · exact Or.inr ⟨p.1, p.2, h2⟩

theorem mem_synchronizeEvents {flags : List Bool} {e : Event}
    (h : e ∈ synchronizeEvents flags) :
    e = Event.recompute ∨ e = Event.updateButtons ∨ e = Event.updateDotNav := by
  unfold synchronizeEvents at h
  split at h <;> simp at h <;> tauto

/-! Claim theorems. -/

/-- C1: for every registry of slides and every visibility assignment,
`synchronize` sets `intersectingLength` (the visible count) to the number
of slides whose flag is `true`, and sets `currentIndex` to the lowest index
of a visible slide — `none` exactly when no slide is visible. -/
theorem synchronize_currentIndex_lowest_visible (flags : List Bool) (s : SnapperState) :
    (synchronize flags s).intersectingLength = flags.count true
    ∧ ((synchronize flags s).currentIndex = none ↔ ∀ b ∈ flags, b = false)
    ∧ (∀ i : Nat, (synchronize flags s).currentIndex = some i →
        ∃ h : i < flags.length, flags.get ⟨i, h⟩ = true
          ∧ ∀ (j : Nat) (hj : j < flags.length), j < i → flags.get ⟨j, hj⟩ = false) := by
  unfold synchronize
  cases h : flags.findIdx? (fun b => b = true) with
  | none =>
      rw [List.findIdx?_eq_none_iff] at h
      refine ⟨by simp [filterTrue_eq_count], by simpa using h, ?_⟩
      intro i hi
      simp at hi
  | some i =>
      rw [List.findIdx?_eq_some_iff_getElem] at h
      obtain ⟨hlen, hget, hlt⟩ := h
      refine ⟨by simp [filterTrue_eq_count], ?_, ?_⟩
      · simp only [Option.some_ne_none, false_iff]
        intro hall
        have := hall _ (List.getElem_mem hlen)
        simp [this] at hget
      · intro i' hi'
        simp only [Option.some_inj] at hi'
        subst hi'
        refine ⟨hlen, by simpa using hget, ?_⟩
        intro j hj hji
        have := hlt j hji
        simpa using this

/-- Witness for C1: on flags `[false, false]` the recomputation reports no
current slide, by the claim theorem applied at that input. -/
theorem synchronize_currentIndex_lowest_visible_witness :
    (synchronize [false, false] s0).currentIndex = none :=
  (synchronize_currentIndex_lowest_visible [false, false] s0).2.1.mpr (by decide)

/-- C2: whenever the recomputation yields a defined `currentIndex = i` over
`n` slides, `isFirst` holds iff `i = 0` and `isLast` holds iff
`intersectingLength + i ≥ n`. -/
theorem synchronize_isFirst_isLast (flags : List Bool) (s : SnapperState) (i : Nat)
    (h : (synchronize flags s).currentIndex = some i) :
    ((synchronize flags s).isFirst = true ↔ i = 0)
    ∧ ((synchronize flags s).isLast = true
        ↔ flags.length ≤ (synchronize flags s).intersectingLength + i) := by
  cases hf : flags.findIdx? (fun b => b = true) with
  | none =>
      rw [synchronize_of_none flags s hf] at h
      simp at h
  | some i' =>
      rw [synchronize_of_some flags s i' hf] at h ⊢
      simp only [Option.some_inj] at h
      subst h
      simp [ge_iff_le]

/-- Witness for C2 (Scenario B): `n = 3`, visibility `{1, 2}` gives
`currentIndex = 1`, `visibleCount = 2`, and `isLast` true since
`2 + 1 ≥ 3`, the last conjunct obtained from the claim theorem. -/
theorem synchronize_isFirst_isLast_witness :
    (synchronize [false, true, true] s0).currentIndex = some 1
    ∧ (synchronize [false, true, true] s0).intersectingLength = 2
    ∧ (synchronize [false, true, true] s0).isLast = true := by
  refine ⟨by decide, by decide, ?_⟩
  exact (synchronize_isFirst_isLast [false, true, true] s0 1 (by decide)).2.mpr (by decide)

/-- C3: from a defined `currentIndex = i` over `n` slides with step `s`,
`goToNext` targets `i + s`; when that target is `≥ n` it performs no
navigation and no side effects at all (it never clamps upward), and when
the target is a valid index it navigates there. -/
theorem goToNext_no_clamp (n i : Nat) (s : Int) (hin : i < n) :
    (((n : Int) ≤ (i : Int) + s) → goToNext n (some i) s = .ok [])
    ∧ (∀ t : Nat, ((t : Int) = (i : Int) + s) → t < n →
        goToNext n (some i) s = .ok [Effect.flash t, Effect.scrollIntoView t]) := by
  constructor
  · intro hover
    unfold goToNext
    dsimp only
    rw [if_neg]
    omega
  · intro t ht htn
    unfold goToNext
    dsimp only
    rw [if_pos (by omega)]
    have : ((i : Int) + s).toNat = t := by omega
    simp [goToElement, this]

/-- Witness for C3: from index 2 of 3 with step 1 the overshoot is a silent
no-op; from index 0 of 5 with step 2 navigation reaches index 2. -/
theorem goToNext_no_clamp_witness :
    goToNext 3 (some 2) 1 = .ok []
    ∧ goToNext 5 (some 0) 2 = .ok [Effect.flash 2, Effect.scrollIntoView 2] :=
  ⟨(goToNext_no_clamp 3 2 1 (by decide)).1 (by decide),
   (goToNext_no_clamp 5 0 2 (by decide)).2 2 (by decide) (by decide)⟩

/-- C4: from a defined `currentIndex = i` over `n` slides with step
`s ≥ 0`, `goToPrevious` targets `i - s` clamped to a floor of `0` and
always performs a real navigation — it issues the flash (pulse) and
scroll-into-view effects on the clamped target, even from index 0. -/
theorem goToPrevious_clamped_navigates (n i : Nat) (s : Int) (hin : i < n) (hs : 0 ≤ s) :
    ∃ t : Nat, (t : Int) = max 0 ((i : Int) - s)
      ∧ goToPrevious n (some i) s = .ok [Effect.flash t, Effect.scrollIntoView t] := by
  refine ⟨((i : Int) - s).toNat, by omega, ?_⟩
  unfold goToPrevious
  dsimp only
  by_cases hneg : (i : Int) - s < 0
  · rw [if_pos hneg, if_pos (by omega)]
    have : ((i : Int) - s).toNat = 0 := by omega
    simp [goToElement, this]
  · rw [if_neg hneg, if_pos (by omega)]
    simp [goToElement]

/-- Witness for C4 (Scenario E): `goToPrevious` from index 0 with step 1
clamps to index 0 and still issues the scroll and pulse effects. -/
theorem goToPrevious_clamped_navigates_witness :
    goToPrevious 3 (some 0) 1 = .ok [Effect.flash 0, Effect.scrollIntoView 0] := by
  obtain ⟨t, ht, h⟩ := goToPrevious_clamped_navigates 3 0 1 (by decide) (by decide)
  have htz : t = 0 := by omega
  rw [htz] at h
  exact h

/-- C5, counterexample: constructing from a container with zero direct
children does not produce the `EmptyRegistrationError` the claim asserts —
the constructor has no failure path. -/
theorem construct_empty_children_no_error :
    constructChecked 0 "" ≠ Except.error ConstructError.emptyRegistration := by
  simp [constructChecked]

/-- C5, amended: construction never fails, on an empty container included —
it completes normally with `state.currentElement` undefined (`none`), and
the bootstrap loop (which has no error handling of its own) therefore
constructs exactly one controller per container. -/
theorem construct_total_bootstrap (numChildren : Nat) (cssValue : String)
    (containers : List (Nat × String)) :
    constructChecked numChildren cssValue = .ok (construct numChildren cssValue)
    ∧ (construct 0 cssValue).state.currentIndex = none
    ∧ (bootstrap containers).length = containers.length := by
  refine ⟨rfl, rfl, ?_⟩
  simp [bootstrap]

/-- C6: a recomputation that finds no visible slide updates only
`intersectingLength` (to 0) and `currentElement` (to undefined) and leaves
everything else — in particular `isFirst` and `isLast`, the button
`disabled` flags and the dot nav — unchanged; being a total function it
raises no fault. -/
theorem synchronize_no_visible_preserves_flags (flags : List Bool) (s : SnapperState)
    (h : ∀ b ∈ flags, b = false) :
    synchronize flags s = { s with intersectingLength := 0, currentIndex := none } := by
  have hf : flags.findIdx? (fun b => b = true) = none := by
    rw [List.findIdx?_eq_none_iff]
    intro x hx
    simp [h x hx]
  have hfil : flags.filter (fun b => b = true) = [] := by
    rw [List.filter_eq_nil_iff]
    intro a ha
    simp [h a ha]
  rw [synchronize_of_none flags s hf, hfil]
  rfl

/-- Witness for C6: the claim theorem applied at the all-hidden flag list
`[false, false]`. -/
theorem synchronize_no_visible_preserves_flags_witness :
    synchronize [false, false] s0 = { s0 with intersectingLength := 0, currentIndex := none } :=
  synchronize_no_visible_preserves_flags [false, false] s0 (by decide)

/-- C7, counterexample: in the state reached by a recomputation that found
no visible slide (`currentElement` undefined), both `goToNext` and
`goToPrevious` raise a `TypeError` (reading `.dataset` of `undefined`)
instead of being silent, refuting "never throws". -/
theorem goToNav_typeError_when_no_visible :
    goToNext 3 (synchronize [false, false, false] s0).currentIndex 1 = .typeError
    ∧ goToPrevious 3 (synchronize [false, false, false] s0).currentIndex 1 = .typeError := by
  decide

/-- C7, amended: `goToNext`/`goToPrevious` throw exactly when
`state.currentElement` is undefined; whenever `currentIndex` is defined
they never throw, and an out-of-range target is a silent no-op with no
side effects. -/
theorem goToNav_error_iff_undefined_current (n : Nat) (c : Option Nat) (s : Int) :
    ((goToNext n c s = .typeError) ↔ c = none)
    ∧ ((goToPrevious n c s = .typeError) ↔ c = none)
    ∧ (∀ i : Nat, c = some i → (((i : Int) + s < 0) ∨ ((n : Int) ≤ (i : Int) + s)) →
        goToNext n c s = .ok [])
    ∧ (∀ i : Nat, c = some i →
        ((n : Int) ≤ if (i : Int) - s < 0 then 0 else (i : Int) - s) →
        goToPrevious n c s = .ok []) := by
  refine ⟨?_, ?_, ?_, ?_⟩
  · cases c with
    | none => simp [goToNext]
    | some i =>
        unfold goToNext
        dsimp only
        constructor
        · intro h
          split at h <;> simp at h
        · intro h
          simp at h
  · cases c with
    | none => simp [goToPrevious]
    | some i =>
        unfold goToPrevious
        dsimp only
        constructor
        · intro h
          split at h <;> split at h <;> simp at h
        · intro h
          simp at h
  · intro i hc hout
    subst hc
    unfold goToNext
    dsimp only
    rw [if_neg (by omega)]
  · intro i hc hout
    subst hc
    unfold goToPrevious
    dsimp only
    rw [if_neg (by omega)]

/-- Witness for C7's amended theorem: with two slides, `goToNext` on an
undefined current throws, and from index 1 with step 1 it is a silent
no-op. -/
theorem goToNav_error_iff_undefined_current_witness :
    goToNext 2 none 1 = .typeError ∧ goToNext 2 (some 1) 1 = .ok [] :=
  ⟨(goToNav_error_iff_undefined_current 2 none 1).1.mpr rfl,
   (goToNav_error_iff_undefined_current 2 (some 1) 1).2.2.1 1 rfl (by decide)⟩

/-- C8: in the trace of one observer-callback invocation, every flag write
of the batch strictly precedes the recomputation event and every UI-update
event (button enablement, dot nav), and the single recomputation runs on
the flags with the whole batch applied — no partially-applied batch state
reaches the recomputation or the UI. -/
theorem observerCallback_flags_before_recompute (batch : List ObserverEntry)
    (flags : List Bool) (s : SnapperState) (j k : Nat) (idx : Nat) (b : Bool)
    (hj : j < (callbackEvents batch flags).length)
    (hk : k < (callbackEvents batch flags).length)
    (hsf : (callbackEvents batch flags).get ⟨j, hj⟩ = Event.setFlag idx b)
    (hre : (callbackEvents batch flags).get ⟨k, hk⟩ = Event.recompute
         ∨ (callbackEvents batch flags).get ⟨k, hk⟩ = Event.updateButtons
         ∨ (callbackEvents batch flags).get ⟨k, hk⟩ = Event.updateDotNav) :
    j < k ∧ (observerCallback batch flags s).2 = synchronize (applyBatch flags batch) s := by
  refine ⟨?_, rfl⟩
  have hlen : (callbackEvents batch flags).length
      = (batch.flatMap entryEvents).length
        + (synchronizeEvents (applyBatch flags batch)).length := by
    simp [callbackEvents]
  have hjlt : j < (batch.flatMap entryEvents).length := by
    by_contra hcon
    push_neg at hcon
    have hj2 : j - (batch.flatMap entryEvents).length
        < (synchronizeEvents (applyBatch flags batch)).length := by omega
    have hget : (callbackEvents batch flags).get ⟨j, hj⟩
        = (synchronizeEvents (applyBatch flags batch)).get
            ⟨j - (batch.flatMap entryEvents).length, hj2⟩ := by
      simp only [callbackEvents, List.get_eq_getElem]
      exact List.getElem_append_right hcon
    have hmem := List.get_mem _ _ hj2
    rw [← hget, hsf] at hmem
    rcases mem_synchronizeEvents hmem with h1 | h1 | h1 <;> cases h1
  have hkge : (batch.flatMap entryEvents).length ≤ k := by
    by_contra hcon
    push_neg at hcon
    have hget : (callbackEvents batch flags).get ⟨k, hk⟩
        = (batch.flatMap entryEvents).get ⟨k, hcon⟩ := by
      simp only [callbackEvents, List.get_eq_getElem]
      exact List.getElem_append_left hcon
    have hmem := List.get_mem _ _ hcon
    rw [← hget] at hmem
    rcases hre with h1 | h1 | h1 <;>
      · rw [h1] at hmem
        rcases mem_entryEvents_batch hmem with ⟨i', b', h2⟩ | ⟨i', b', h2⟩ <;> cases h2
  omega

/-- Witness for C8: in the trace of the batch `[(0, true)]` over flags
`[false, false]`, the flag write at position 0 precedes the recomputation
at position 2, by the claim theorem applied at that trace. -/
theorem observerCallback_flags_before_recompute_witness : (0 : Nat) < 2 :=
  (observerCallback_flags_before_recompute [(0, true)] [false, false] s0 0 2 0 true
    (by decide) (by decide) (by decide) (Or.inl (by decide))).1

/-- C9: the step size is the `--scroll-by` style value read at
construction; a non-numeric value (one `parseInt` maps to `NaN`) and the
absent value (the empty string) both resolve to the default 1. -/
theorem scrollBy_default_on_non_numeric (n : Nat) (v : String)
    (hv : parseIntJS v = none) :
    (construct n v).state.scrollBy = 1
    ∧ (construct n "").state.scrollBy = 1 := by
  have h0 : parseIntJS "" = none := by decide
  constructor
  · simp [construct, scrollByOf, jsOrDefault, hv]
  · simp [construct, scrollByOf, jsOrDefault, h0]

/-- Witness for C9: the non-numeric value `"auto"` resolves to step 1, by
the claim theorem. -/
theorem scrollBy_default_on_non_numeric_witness :
    (construct 3 "auto").state.scrollBy = 1 :=
  (scrollBy_default_on_non_numeric 3 "auto" (by decide)).1

/-- C10: the sanitized step is never 0 — a value parsing to 0 falls back to
the default 1 — but a negative parsed value is kept unchanged, and with a
negative step `goToNext` only ever navigates to a strictly lower index
while `goToPrevious` only ever navigates to a strictly higher one. -/
theorem scrollBy_never_zero_negative_kept :
    (∀ v : String, scrollByOf v ≠ 0)
    ∧ (∀ v : String, parseIntJS v = some 0 → scrollByOf v = 1)
    ∧ (∀ (v : String) (k : Int), parseIntJS v = some k → k < 0 → scrollByOf v = k)
    ∧ (∀ (n i : Nat) (s : Int) (t : Nat), s < 0 → i < n →
        goToNext n (some i) s = .ok [Effect.flash t, Effect.scrollIntoView t] → t < i)
    ∧ (∀ (n i : Nat) (s : Int) (t : Nat), s < 0 → i < n →
        goToPrevious n (some i) s = .ok [Effect.flash t, Effect.scrollIntoView t] → i < t) := by
  refine ⟨?_, ?_, ?_, ?_, ?_⟩
  · intro v
    unfold scrollByOf jsOrDefault
    cases h : parseIntJS v with
    | none => simp
    | some k =>
        by_cases hk : k = 0 <;> simp [hk]
  · intro v hv
    simp [scrollByOf, jsOrDefault, hv]
  · intro v k hv hk
    simp only [scrollByOf, jsOrDefault, hv]
    rw [if_neg (by omega)]
  · intro n i s t hs hin h
    unfold goToNext at h
    dsimp only at h
    split at h
    · simp only [goToElement, NavOutcome.ok.injEq, List.cons.injEq] at h
      obtain ⟨⟨ht, -⟩, -⟩ := h
      rename_i hcond
      omega
    · simp at h
  · intro n i s t hs hin h
    unfold goToPrevious at h
    dsimp only at h
    split at h
    · rename_i hraw
      split at h
      · simp only [goToElement, NavOutcome.ok.injEq, List.cons.injEq] at h
        obtain ⟨⟨ht, -⟩, -⟩ := h
        omega
      · simp at h
    · rename_i hraw
      split at h
      · simp only [goToElement, NavOutcome.ok.injEq, List.cons.injEq] at h
        obtain ⟨⟨ht, -⟩, -⟩ := h
        rename_i hcond
        omega
      · simp at h

/-- Witness for C10: `"-2"` is kept as step `-2`, and with step `-2` a
`goToNext` from index 3 that lands on index 1 indeed moved down. -/
theorem scrollBy_never_zero_negative_kept_witness :
    scrollByOf "-2" = -2 ∧ (1 : Nat) < 3 :=
  ⟨scrollBy_never_zero_negative_kept.2.2.1 "-2" (-2) (by decide) (by decide),
   scrollBy_never_zero_negative_kept.2.2.2.1 5 3 (-2) 1 (by decide) (by decide) (by decide)⟩

end ScrollSnapper
